import Mathlib

/-!
Shallow embedding of the nanotemp temporary-file tracking module
(src/index.ts): the tracking flag, the exit-hook installer, the pending
path registry, and the synchronous and asynchronous cleanup engines.

Modelling conventions:
* The module-level mutable state (`tracking`, `exitListenerAttached`,
  `filesToDelete`, `dirsToDelete`) becomes the `TempState` record, passed
  and returned explicitly.  `exitListeners` additionally counts how many
  times `process.addListener("exit", ...)` was invoked, so that
  "a single listener is installed" is observable.
* External collaborators (rimraf, mkdirp, fs.open) are modelled by their
  observable interaction: synchronous removals are recorded in a
  `removed` log; the completion of an asynchronous removal is an event
  `Option String` (`some e` = completion with error `e`, `none` =
  success).  A whole asynchronous drain consumes a list of such events,
  one per dispatched removal, in arbitrary completion order.
* A JS callback invocation `callback(err, count)` is recorded as a pair
  `(Option String × Option Nat)`: the error argument and the count
  argument, `none` standing for null/undefined.
* JS values passed to `track` / `parseAffixes` are modelled by `JSVal`
  with JS truthiness and `typeof`.
-/

namespace Nanotemp

/-- JavaScript runtime values that can reach `track` and `parseAffixes`.
The `object` constructor carries the three recognized affix options. -/
inductive JSVal where
  | undefined
  | null
  | boolean (b : Bool)
  | number (n : Int)
  | str (s : String)
  | object (pre suf dir : Option String)
deriving DecidableEq

/-- JS truthiness of a value (`if (v)`). -/
def JSVal.truthy : JSVal → Bool
  | .undefined => false
  | .null => false
  | .boolean b => b
  | .number n => n != 0
  | .str s => s != ""
  | .object _ _ _ => true

/-- JS `typeof v`. -/
def JSVal.typeof : JSVal → String
  | .undefined => "undefined"
  | .null => "object"
  | .boolean _ => "boolean"
  | .number _ => "number"
  | .str _ => "string"
  | .object _ _ _ => "object"

/-- The `AffixOptions` interface: `{prefix?, suffix?, dir?}`.
(`prefix`/`suffix` are Lean keywords, hence `pre`/`suf`.) -/
structure AffixOptions where
  pre : Option String
  suf : Option String
  dir : Option String
deriving DecidableEq

/-- `parseAffixes(rawAffixes, defaultPrefix)` from src/index.ts:
`if (rawAffixes) switch (typeof rawAffixes) { string | object | throw }
else affixes.prefix = defaultPrefix`.  Note `null` is falsy, so it takes
the else branch even though `typeof null === "object"`. -/
def parseAffixes (rawAffixes : JSVal) (defaultPrefix : Option String) :
    Except String AffixOptions :=
  if rawAffixes.truthy then
    match rawAffixes with
    | .str s => .ok { pre := some s, suf := none, dir := none }
    | .object p sfx d => .ok { pre := p, suf := sfx, dir := d }
    | _ => .error "Unknown affix declaration"
  else
    .ok { pre := defaultPrefix, suf := none, dir := none }

/-- `Array.prototype.join("")` renders `undefined` as the empty string. -/
def jsJoinPart : Option String → String
  | some s => s
  | none => ""

/-- Model of `path.join` (external collaborator `node:path`). -/
def pathJoin (a b : String) : String := a ++ "/" ++ b

/-- `generateName(rawAffixes, defaultPrefix)`.  The impure ingredients —
the date components, `process.pid`, the random base-36 component and the
module-level base `dir` — are passed in as `datePart`, `pidPart`,
`randPart`, `baseDir`.  `affixes.dir || dir` is JS `||`: a falsy (absent
or empty) `dir` option falls back to the base directory. -/
def generateName (rawAffixes : JSVal) (defaultPrefix : Option String)
    (datePart pidPart randPart : String) (baseDir : String) :
    Except String String :=
  match parseAffixes rawAffixes defaultPrefix with
  | .error e => .error e
  | .ok affixes =>
      let name := jsJoinPart affixes.pre ++ datePart ++ "-" ++ pidPart ++
        "-" ++ randPart ++ jsJoinPart affixes.suf
      let d := match affixes.dir with
        | some s => if s = "" then baseDir else s
        | none => baseDir
      .ok (pathJoin d name)

/-- The module-level mutable state of src/index.ts.  `exitListeners`
counts invocations of `process.addListener("exit", ...)`. -/
structure TempState where
  tracking : Bool
  exitListenerAttached : Bool
  exitListeners : Nat
  filesToDelete : List String
  dirsToDelete : List String
deriving DecidableEq

/-- The state at module load: `tracking = false`,
`exitListenerAttached = false`, both pending lists empty. -/
def initState : TempState :=
  { tracking := false, exitListenerAttached := false, exitListeners := 0,
    filesToDelete := [], dirsToDelete := [] }

/-- `track(value: boolean = true) { tracking = value !== false; }`.
The JS default parameter replaces `undefined` by `true`; `!==` is strict
inequality, so only the boolean `false` disables tracking. -/
def track (s : TempState) (value : JSVal) : TempState :=
  let v := if value = JSVal.undefined then JSVal.boolean true else value
  { s with tracking := if v = JSVal.boolean false then false else true }

/-- `attachExitListener()`: gated by `tracking`, installs the exit
listener only when `exitListenerAttached` is still false, then sets it. -/
def attachExitListener (s : TempState) : TempState :=
  if s.tracking = false then s
  else if s.exitListenerAttached = false then
    { s with exitListeners := s.exitListeners + 1, exitListenerAttached := true }
  else s

/-- `deleteFileOnExit(filePath)`: no-op unless tracking; otherwise
attach the exit listener, then push the path. -/
def deleteFileOnExit (s : TempState) (filePath : String) : TempState :=
  if s.tracking = false then s
  else
    let s1 := attachExitListener s
    { s1 with filesToDelete := s1.filesToDelete ++ [filePath] }

/-- `deleteDirOnExit(dirPath)`: no-op unless tracking; otherwise attach
the exit listener, then push the path. -/
def deleteDirOnExit (s : TempState) (dirPath : String) : TempState :=
  if s.tracking = false then s
  else
    let s1 := attachExitListener s
    { s1 with dirsToDelete := s1.dirsToDelete ++ [dirPath] }

/-- The `while ((toDelete = list.shift()) !== undefined)` loop shared by
both synchronous drains: removes the head, calls `rimrafSync` on it
(logged), increments the count.  Returns (count, removal log). -/
def drainLoop : List String → Nat × List String
  | [] => (0, [])
  | p :: rest =>
      let r := drainLoop rest
      (r.1 + 1, p :: r.2)

/-- Outcome of a synchronous drain: `result = none` models the JS
return value `false` (not tracking), `some n` the count `n`;
`removed` is the ordered log of `rimrafSync` calls. -/
structure SyncDrain where
  result : Option Nat
  state : TempState
  removed : List String
deriving DecidableEq

/-- `cleanupFilesSync()`. -/
def cleanupFilesSync (s : TempState) : SyncDrain :=
  if s.tracking = false then ⟨none, s, []⟩
  else
    let r := drainLoop s.filesToDelete
    ⟨some r.1, { s with filesToDelete := [] }, r.2⟩

/-- `cleanupDirsSync()`. -/
def cleanupDirsSync (s : TempState) : SyncDrain :=
  if s.tracking = false then ⟨none, s, []⟩
  else
    let r := drainLoop s.dirsToDelete
    ⟨some r.1, { s with dirsToDelete := [] }, r.2⟩

/-- Return value of `cleanupSync`: the sentinel `false` or the
`{files, dirs}` stats object. -/
inductive SyncStats where
  | notTracking
  | stats (files dirs : Nat)
deriving DecidableEq

/-- Outcome of `cleanupSync`: result, final state, removal log. -/
structure CleanupSyncRun where
  result : SyncStats
  state : TempState
  removed : List String
deriving DecidableEq

/-- `cleanupSync()`: `false` when not tracking, otherwise drain files
then dirs and return `{files, dirs}`.  The fallback match arm is dead
code: under `tracking = true` both sub-drains return counts. -/
def cleanupSync (s : TempState) : CleanupSyncRun :=
  if s.tracking = false then ⟨.notTracking, s, []⟩
  else
    let rf := cleanupFilesSync s
    let rd := cleanupDirsSync rf.state
    match rf.result, rd.result with
    | some f, some d => ⟨.stats f d, rd.state, rf.removed ++ rd.removed⟩
    | _, _ => ⟨.notTracking, rd.state, rf.removed ++ rd.removed⟩

/-- The exit listener body installed by `attachExitListener`: it runs
`cleanupSync()` (the try/catch re-raises, so the state effect is that of
`cleanupSync`).  Returns the final state and the removal log. -/
def exitHandler (s : TempState) : TempState × List String :=
  let r := cleanupSync s
  (r.state, r.removed)

/-- Shared state of the `rimrafCallback` closure of one asynchronous drain:
`left` and `count` as in the source, plus the ordered log of invocations
of the overall completion `callback(err, count)` (each argument `none`
when the source passes null/undefined). -/
structure AsyncState where
  left : Nat
  count : Nat
  calls : List (Option String × Option Nat)
deriving DecidableEq

/-- The `rimrafCallback` of `cleanupFiles`, applied to one completion
event.  On error it invokes `callback(err)` — with NO count argument —
and sets `left = 0` to abort; completions arriving after the abort are
discarded by the `if (!left) return` guard. -/
def filesRimrafCallback (st : AsyncState) (err : Option String) : AsyncState :=
  if st.left = 0 then st
  else
    match err with
    | some e => { st with calls := st.calls ++ [(some e, none)], left := 0 }
    | none =>
        let count := st.count + 1
        let left := st.left - 1
        if left = 0 then
          { left := left, count := count, calls := st.calls ++ [(none, some count)] }
        else { st with count := count, left := left }

/-- The `rimrafCallback` of `cleanupDirs`: identical except that on
error it invokes `callback(err, count)` WITH the partial count. -/
def dirsRimrafCallback (st : AsyncState) (err : Option String) : AsyncState :=
  if st.left = 0 then st
  else
    match err with
    | some e => { st with calls := st.calls ++ [(some e, some st.count)], left := 0 }
    | none =>
        let count := st.count + 1
        let left := st.left - 1
        if left = 0 then
          { left := left, count := count, calls := st.calls ++ [(none, some count)] }
        else { st with count := count, left := left }

/-- Outcome of an asynchronous drain: the overall-callback invocation
log, the final module state, and the paths dispatched to `rimraf`
(drained from the pending list at dispatch time). -/
structure AsyncDrain where
  calls : List (Option String × Option Nat)
  state : TempState
  dispatched : List String
deriving DecidableEq

/-- `cleanupFiles(callback)`: not tracking → `callback(Error)`; empty
list → `callback(null, 0)`; otherwise dispatch one `rimraf` per pending
file (draining the list), then process the completion `events` through
`filesRimrafCallback`. -/
def cleanupFiles (s : TempState) (events : List (Option String)) : AsyncDrain :=
  if s.tracking = false then ⟨[(some "not tracking", none)], s, []⟩
  else if s.filesToDelete.length = 0 then ⟨[(none, some 0)], s, []⟩
  else
    let st0 : AsyncState := ⟨s.filesToDelete.length, 0, []⟩
    let fin := events.foldl filesRimrafCallback st0
    ⟨fin.calls, { s with filesToDelete := [] }, s.filesToDelete⟩

/-- `cleanupDirs(callback)`: same shape over `dirsToDelete` with
`dirsRimrafCallback`. -/
def cleanupDirs (s : TempState) (events : List (Option String)) : AsyncDrain :=
  if s.tracking = false then ⟨[(some "not tracking", none)], s, []⟩
  else if s.dirsToDelete.length = 0 then ⟨[(none, some 0)], s, []⟩
  else
    let st0 : AsyncState := ⟨s.dirsToDelete.length, 0, []⟩
    let fin := events.foldl dirsRimrafCallback st0
    ⟨fin.calls, { s with dirsToDelete := [] }, s.dirsToDelete⟩

/-- Outcome of the combined asynchronous `cleanup`: each overall
callback invocation is `(err, files count, dirs count)` — the `files`
and `dirs` components of the result object, `none` when absent. -/
structure CleanupRun where
  calls : List (Option String × Option Nat × Option Nat)
  state : TempState
  dispatched : List String
deriving DecidableEq

/-- `cleanup(callback)`: not tracking → `callback(Error)`; otherwise run
the file drain; on `fileErr` report `callback(fileErr, {files:
fileCount})` (no dirs key); otherwise run the dir drain and report
`callback(dirErr, {files: fileCount, dirs: dirCount})`. -/
def cleanup (s : TempState) (fileEvents dirEvents : List (Option String)) :
    CleanupRun :=
  if s.tracking = false then ⟨[(some "not tracking", none, none)], s, []⟩
  else
    let rf := cleanupFiles s fileEvents
    match rf.calls with
    | [] => ⟨[], rf.state, rf.dispatched⟩
    | (some e, c) :: _ => ⟨[(some e, c, none)], rf.state, rf.dispatched⟩
    | (none, c) :: _ =>
        let rd := cleanupDirs rf.state dirEvents
        match rd.calls with
        | [] => ⟨[], rd.state, rf.dispatched ++ rd.dispatched⟩
        | (derr, dc) :: _ => ⟨[(derr, c, dc)], rd.state, rf.dispatched ++ rd.dispatched⟩

/-- `mkdir(affixes, callback)` after name generation: `mkdirp` reports
`mkdirpErr`; on success the path is registered, and in either case the
callback receives `(err, dirPath)`. -/
def mkdir (s : TempState) (dirPath : String) (mkdirpErr : Option String) :
    (Option String × String) × TempState :=
  let s1 := if mkdirpErr = none then deleteDirOnExit s dirPath else s
  ((mkdirpErr, dirPath), s1)

/-- `open(affixes, callback)` after name generation (`open` is a Lean
keyword): `fs.open` reports `(openErr, fd)`; on success the path is
registered, and in either case the callback receives
`(err, {path, fd})`. -/
def openFile (s : TempState) (filePath : String) (openErr : Option String)
    (fd : Nat) : (Option String × String × Nat) × TempState :=
  let s1 := if openErr = none then deleteFileOnExit s filePath else s
  ((openErr, filePath, fd), s1)

/-- The registration step of one successful resource creation, as performed
by the factories (`mkdir`/`mkdirSync` register a dir, `open`/`openSync`/
`createWriteStream` register a file). -/
inductive RegOp where
  | file (p : String)
  | dir (p : String)
deriving DecidableEq

/-- Apply one registration. -/
def applyRegOp (s : TempState) : RegOp → TempState
  | .file p => deleteFileOnExit s p
  | .dir p => deleteDirOnExit s p

/-- Apply a sequence of registrations in order. -/
def applyRegOps (s : TempState) (ops : List RegOp) : TempState :=
  ops.foldl applyRegOp s

/-- The module state right after `require` + `temp.track()` (a call with
no argument). -/
def initTracked : TempState := track initState JSVal.undefined

/-- Invariant of the callback state of a drain: the overall completion
callback has been invoked at most once, and once it has been invoked the
drain is finished (`left = 0`), so every later event is discarded. -/
def AtMostOnceInv (st : AsyncState) : Prop :=
  st.calls.length ≤ 1 ∧ (st.calls ≠ [] → st.left = 0)

/-- Invariant tying `exitListenerAttached` to the number of installed
exit listeners: either not yet attached and zero listeners, or attached
and exactly one listener. -/
def HookInv (s : TempState) : Prop :=
  (s.exitListenerAttached = false ∧ s.exitListeners = 0) ∨
  (s.exitListenerAttached = true ∧ s.exitListeners = 1)

/-! ## Theorems -/

/-- The synchronous drain loop removes every entry, in order, and
counts them. -/
theorem drainLoop_eq (l : List String) : drainLoop l = (l.length, l) := by
  induction l with
  | nil => rfl
  | cons p rest ih => simp [drainLoop, ih]

/-- C1: the claim as stated is false — in the initial module state
tracking is OFF: registering a created path does not append it (the
pending list stays empty), and `cleanupSync` returns the sentinel
`false`, not `{files, dirs}` counts. -/
theorem c1_counterexample :
    initState.tracking = false ∧
    (deleteFileOnExit initState "/tmp/f-x").filesToDelete = [] ∧
    (cleanupSync initState).result = SyncStats.notTracking := by
  decide

/-- C1 (amended): with no prior call to `track`, tracking is off: in the
initial process state registering a created file or directory path is a
no-op (state unchanged, no exit hook installed), and `cleanupSync`
returns the sentinel `false` without touching anything. -/
theorem c1_amended (p q : String) :
    initState.tracking = false ∧
    deleteFileOnExit initState p = initState ∧
    deleteDirOnExit initState q = initState ∧
    cleanupSync initState = ⟨SyncStats.notTracking, initState, []⟩ :=
  ⟨rfl, rfl, rfl, rfl⟩

/-- C4: with tracking enabled, `cleanupSync` reports the pending list
lengths, leaves both pending lists empty, and an immediately following
second `cleanupSync` returns `{files := 0, dirs := 0}` while removing
nothing — the drain is idempotent. -/
theorem c4_cleanup_sync_idempotent (s : TempState) (ht : s.tracking = true) :
    (cleanupSync s).result =
      SyncStats.stats s.filesToDelete.length s.dirsToDelete.length ∧
    (cleanupSync s).state.filesToDelete = [] ∧
    (cleanupSync s).state.dirsToDelete = [] ∧
    cleanupSync (cleanupSync s).state =
      ⟨SyncStats.stats 0 0, (cleanupSync s).state, []⟩ := by
  simp [cleanupSync, cleanupFilesSync, cleanupDirsSync, drainLoop_eq, ht]

/-- Witness for C4 at a concrete state with one file and two dirs. -/
theorem c4_witness :
    (cleanupSync ⟨true, true, 1, ["a"], ["b", "c"]⟩).result = SyncStats.stats 1 2 ∧
    (cleanupSync ⟨true, true, 1, ["a"], ["b", "c"]⟩).state.filesToDelete = [] ∧
    (cleanupSync ⟨true, true, 1, ["a"], ["b", "c"]⟩).state.dirsToDelete = [] ∧
    cleanupSync (cleanupSync ⟨true, true, 1, ["a"], ["b", "c"]⟩).state =
      ⟨SyncStats.stats 0 0, (cleanupSync ⟨true, true, 1, ["a"], ["b", "c"]⟩).state, []⟩ :=
  c4_cleanup_sync_idempotent ⟨true, true, 1, ["a"], ["b", "c"]⟩ rfl

/-- C6: with tracking disabled, every synchronous cleanup returns the
sentinel `false` (`result = none` / `notTracking`), every asynchronous
cleanup completes with the "not tracking" error, no removal is issued
(`removed`/`dispatched` empty) and the state — in particular both
pending lists — is unchanged. -/
theorem c6_not_tracking_noop (s : TempState) (ev fe de : List (Option String))
    (ht : s.tracking = false) :
    cleanupFilesSync s = ⟨none, s, []⟩ ∧
    cleanupDirsSync s = ⟨none, s, []⟩ ∧
    cleanupSync s = ⟨SyncStats.notTracking, s, []⟩ ∧
    cleanupFiles s ev = ⟨[(some "not tracking", none)], s, []⟩ ∧
    cleanupDirs s ev = ⟨[(some "not tracking", none)], s, []⟩ ∧
    cleanup s fe de = ⟨[(some "not tracking", none, none)], s, []⟩ := by
  simp [cleanupFilesSync, cleanupDirsSync, cleanupSync, cleanupFiles,
    cleanupDirs, cleanup, ht]

/-- Witness for C6 at a concrete disabled state with nonempty pending
lists. -/
theorem c6_witness :
    cleanupFilesSync ⟨false, true, 1, ["x"], ["y"]⟩ =
      ⟨none, ⟨false, true, 1, ["x"], ["y"]⟩, []⟩ ∧
    cleanupDirsSync ⟨false, true, 1, ["x"], ["y"]⟩ =
      ⟨none, ⟨false, true, 1, ["x"], ["y"]⟩, []⟩ ∧
    cleanupSync ⟨false, true, 1, ["x"], ["y"]⟩ =
      ⟨SyncStats.notTracking, ⟨false, true, 1, ["x"], ["y"]⟩, []⟩ ∧
    cleanupFiles ⟨false, true, 1, ["x"], ["y"]⟩ [none] =
      ⟨[(some "not tracking", none)], ⟨false, true, 1, ["x"], ["y"]⟩, []⟩ ∧
    cleanupDirs ⟨false, true, 1, ["x"], ["y"]⟩ [none] =
      ⟨[(some "not tracking", none)], ⟨false, true, 1, ["x"], ["y"]⟩, []⟩ ∧
    cleanup ⟨false, true, 1, ["x"], ["y"]⟩ [none] [none] =
      ⟨[(some "not tracking", none, none)], ⟨false, true, 1, ["x"], ["y"]⟩, []⟩ :=
  c6_not_tracking_noop ⟨false, true, 1, ["x"], ["y"]⟩ [none] [none] [none] rfl

/-- C8: when the underlying creation collaborator reports an error
(`mkdirp` for `mkdir`, `fs.open` for `open`), the generated path is not
registered — the whole state, in particular both pending lists, is
returned unchanged — and the error is passed to the callback of the caller. -/
theorem c8_creation_error_no_register (s : TempState) (p q e : String) (fd : Nat) :
    mkdir s p (some e) = ((some e, p), s) ∧
    openFile s q (some e) fd = ((some e, q, fd), s) := by
  simp [mkdir, openFile]

/-- C9: if tracking is disabled when the installed exit handler runs,
the handler removes nothing and leaves the state — including paths
registered while tracking was previously enabled — unchanged. -/
theorem c9_exit_handler_not_tracking (s : TempState) (ht : s.tracking = false) :
    exitHandler s = (s, []) := by
  simp [exitHandler, cleanupSync, ht]

/-- Witness for C9: a state whose lists were populated earlier (exit
hook attached) but with tracking now off. -/
theorem c9_witness :
    exitHandler ⟨false, true, 1, ["/tmp/f-old"], ["/tmp/d-old"]⟩ =
      (⟨false, true, 1, ["/tmp/f-old"], ["/tmp/d-old"]⟩, []) :=
  c9_exit_handler_not_tracking ⟨false, true, 1, ["/tmp/f-old"], ["/tmp/d-old"]⟩ rfl

/-- C10: `track(value)` disables tracking exactly when `value` is the
boolean `false` (strict `!==` comparison); every other argument —
`undefined` (the default), `null`, `0`, the empty string, objects —
leaves tracking enabled. -/
theorem c10_track_strict_false (s : TempState) (v : JSVal) :
    (track s (JSVal.boolean false)).tracking = false ∧
    (v ≠ JSVal.boolean false → (track s v).tracking = true) := by
  refine ⟨rfl, fun hv => ?_⟩
  cases v with
  | undefined => rfl
  | null => rfl
  | boolean b =>
      cases b with
      | false => exact absurd rfl hv
      | true => rfl
  | number n => rfl
  | str s2 => rfl
  | object p sfx d => rfl

/-- Witness for C10 at the concrete falsy non-`false` arguments the
claim lists. -/
theorem c10_witness :
    (track initState (JSVal.boolean false)).tracking = false ∧
    (track initState JSVal.undefined).tracking = true ∧
    (track initState JSVal.null).tracking = true ∧
    (track initState (JSVal.number 0)).tracking = true ∧
    (track initState (JSVal.str "")).tracking = true :=
  ⟨(c10_track_strict_false initState JSVal.undefined).1,
    (c10_track_strict_false initState JSVal.undefined).2 (by decide),
    (c10_track_strict_false initState JSVal.null).2 (by decide),
    (c10_track_strict_false initState (JSVal.number 0)).2 (by decide),
    (c10_track_strict_false initState (JSVal.str "")).2 (by decide)⟩

/-- A files-drain completion arriving after the drain finished or
aborted (`left = 0`) is discarded. -/
theorem filesRimrafCallback_left_zero (st : AsyncState) (e : Option String)
    (h : st.left = 0) : filesRimrafCallback st e = st := by
  simp [filesRimrafCallback, h]

/-- A dirs-drain completion arriving after the drain finished or
aborted (`left = 0`) is discarded. -/
theorem dirsRimrafCallback_left_zero (st : AsyncState) (e : Option String)
    (h : st.left = 0) : dirsRimrafCallback st e = st := by
  simp [dirsRimrafCallback, h]

/-- Once a files drain has `left = 0`, any further event stream leaves
its callback state untouched. -/
theorem foldl_filesRimrafCallback_left_zero (st : AsyncState)
    (evs : List (Option String)) (h : st.left = 0) :
    evs.foldl filesRimrafCallback st = st := by
  induction evs with
  | nil => rfl
  | cons e rest ih =>
      rw [List.foldl_cons, filesRimrafCallback_left_zero st e h]
      exact ih

/-- Once a dirs drain has `left = 0`, any further event stream leaves
its callback state untouched. -/
theorem foldl_dirsRimrafCallback_left_zero (st : AsyncState)
    (evs : List (Option String)) (h : st.left = 0) :
    evs.foldl dirsRimrafCallback st = st := by
  induction evs with
  | nil => rfl
  | cons e rest ih =>
      rw [List.foldl_cons, dirsRimrafCallback_left_zero st e h]
      exact ih

/-- One step of the files drain callback preserves `AtMostOnceInv`. -/
theorem filesRimrafCallback_inv (st : AsyncState) (e : Option String)
    (h : AtMostOnceInv st) : AtMostOnceInv (filesRimrafCallback st e) := by
  obtain ⟨h1, h2⟩ := h
  by_cases hl : st.left = 0
  · rw [filesRimrafCallback_left_zero st e hl]
    exact ⟨h1, h2⟩
  · have hcalls : st.calls = [] := by
      by_contra hc
      exact hl (h2 hc)
    cases e with
    | some e => simp [AtMostOnceInv, filesRimrafCallback, hl, hcalls]
    | none =>
        by_cases hz : st.left - 1 = 0
        · simp [AtMostOnceInv, filesRimrafCallback, hl, hz, hcalls]
        · simp [AtMostOnceInv, filesRimrafCallback, hl, hz, hcalls]

/-- One step of the dirs drain callback preserves `AtMostOnceInv`. -/
theorem dirsRimrafCallback_inv (st : AsyncState) (e : Option String)
    (h : AtMostOnceInv st) : AtMostOnceInv (dirsRimrafCallback st e) := by
  obtain ⟨h1, h2⟩ := h
  by_cases hl : st.left = 0
  · rw [dirsRimrafCallback_left_zero st e hl]
    exact ⟨h1, h2⟩
  · have hcalls : st.calls = [] := by
      by_contra hc
      exact hl (h2 hc)
    cases e with
    | some e => simp [AtMostOnceInv, dirsRimrafCallback, hl, hcalls]
    | none =>
        by_cases hz : st.left - 1 = 0
        · simp [AtMostOnceInv, dirsRimrafCallback, hl, hz, hcalls]
        · simp [AtMostOnceInv, dirsRimrafCallback, hl, hz, hcalls]

/-- `AtMostOnceInv` is preserved by any stream of files-drain events. -/
theorem foldl_filesRimrafCallback_inv (evs : List (Option String)) :
    ∀ st : AsyncState, AtMostOnceInv st →
      AtMostOnceInv (evs.foldl filesRimrafCallback st) := by
  induction evs with
  | nil => exact fun st h => h
  | cons e rest ih => exact fun st h => ih _ (filesRimrafCallback_inv st e h)

/-- `AtMostOnceInv` is preserved by any stream of dirs-drain events. -/
theorem foldl_dirsRimrafCallback_inv (evs : List (Option String)) :
    ∀ st : AsyncState, AtMostOnceInv st →
      AtMostOnceInv (evs.foldl dirsRimrafCallback st) := by
  induction evs with
  | nil => exact fun st h => h
  | cons e rest ih => exact fun st h => ih _ (dirsRimrafCallback_inv st e h)

/-- In any files drain, the overall callback fires at most once. -/
theorem cleanupFiles_calls_le_one (s : TempState) (ev : List (Option String)) :
    (cleanupFiles s ev).calls.length ≤ 1 := by
  by_cases ht : s.tracking = false
  · simp [cleanupFiles, ht]
  · by_cases hn : s.filesToDelete.length = 0
    · simp [cleanupFiles, ht, hn]
    · have hinv := foldl_filesRimrafCallback_inv ev
        ⟨s.filesToDelete.length, 0, []⟩ ⟨by simp, by simp⟩
      simpa [cleanupFiles, ht, hn] using hinv.1

/-- In any dirs drain, the overall callback fires at most once. -/
theorem cleanupDirs_calls_le_one (s : TempState) (ev : List (Option String)) :
    (cleanupDirs s ev).calls.length ≤ 1 := by
  by_cases ht : s.tracking = false
  · simp [cleanupDirs, ht]
  · by_cases hn : s.dirsToDelete.length = 0
    · simp [cleanupDirs, ht, hn]
    · have hinv := foldl_dirsRimrafCallback_inv ev
        ⟨s.dirsToDelete.length, 0, []⟩ ⟨by simp, by simp⟩
      simpa [cleanupDirs, ht, hn] using hinv.1

/-- Once a files drain has reported, later completions change nothing. -/
theorem cleanupFiles_frozen (s : TempState) (ev extra : List (Option String))
    (h : (cleanupFiles s ev).calls ≠ []) :
    cleanupFiles s (ev ++ extra) = cleanupFiles s ev := by
  by_cases ht : s.tracking = false
  · simp [cleanupFiles, ht]
  · by_cases hn : s.filesToDelete.length = 0
    · simp [cleanupFiles, ht, hn]
    · have hinv := foldl_filesRimrafCallback_inv ev
        ⟨s.filesToDelete.length, 0, []⟩ ⟨by simp, by simp⟩
      have hne : (ev.foldl filesRimrafCallback
          ⟨s.filesToDelete.length, 0, []⟩).calls ≠ [] := by
        simpa [cleanupFiles, ht, hn] using h
      have hleft := hinv.2 hne
      simp [cleanupFiles, ht, hn, List.foldl_append,
        foldl_filesRimrafCallback_left_zero _ extra hleft]

/-- Once a dirs drain has reported, later completions change nothing. -/
theorem cleanupDirs_frozen (s : TempState) (ev extra : List (Option String))
    (h : (cleanupDirs s ev).calls ≠ []) :
    cleanupDirs s (ev ++ extra) = cleanupDirs s ev := by
  by_cases ht : s.tracking = false
  · simp [cleanupDirs, ht]
  · by_cases hn : s.dirsToDelete.length = 0
    · simp [cleanupDirs, ht, hn]
    · have hinv := foldl_dirsRimrafCallback_inv ev
        ⟨s.dirsToDelete.length, 0, []⟩ ⟨by simp, by simp⟩
      have hne : (ev.foldl dirsRimrafCallback
          ⟨s.dirsToDelete.length, 0, []⟩).calls ≠ [] := by
        simpa [cleanupDirs, ht, hn] using h
      have hleft := hinv.2 hne
      simp [cleanupDirs, ht, hn, List.foldl_append,
        foldl_dirsRimrafCallback_left_zero _ extra hleft]

/-- C7: in every asynchronous drain the overall completion callback is
invoked at most once, and once it has been invoked (in particular after
the first error aborted the drain) every later-arriving completion is
discarded — extending the event stream changes neither the reported
result nor the final state. -/
theorem c7_callback_at_most_once (s : TempState)
    (ev extra : List (Option String)) :
    (cleanupFiles s ev).calls.length ≤ 1 ∧
    (cleanupDirs s ev).calls.length ≤ 1 ∧
    ((cleanupFiles s ev).calls ≠ [] →
      cleanupFiles s (ev ++ extra) = cleanupFiles s ev) ∧
    ((cleanupDirs s ev).calls ≠ [] →
      cleanupDirs s (ev ++ extra) = cleanupDirs s ev) :=
  ⟨cleanupFiles_calls_le_one s ev, cleanupDirs_calls_le_one s ev,
    cleanupFiles_frozen s ev extra, cleanupDirs_frozen s ev extra⟩

/-- Witness for C7: an aborted drain of two entries whose late success
completion is discarded. -/
theorem c7_witness :
    (cleanupFiles ⟨true, true, 1, ["a", "b"], ["c", "d"]⟩ [some "EIO"]).calls.length ≤ 1 ∧
    cleanupFiles ⟨true, true, 1, ["a", "b"], ["c", "d"]⟩ ([some "EIO"] ++ [none]) =
      cleanupFiles ⟨true, true, 1, ["a", "b"], ["c", "d"]⟩ [some "EIO"] ∧
    cleanupDirs ⟨true, true, 1, ["a", "b"], ["c", "d"]⟩ ([some "EIO"] ++ [none]) =
      cleanupDirs ⟨true, true, 1, ["a", "b"], ["c", "d"]⟩ [some "EIO"] :=
  ⟨(c7_callback_at_most_once ⟨true, true, 1, ["a", "b"], ["c", "d"]⟩ [some "EIO"] [none]).1,
    (c7_callback_at_most_once ⟨true, true, 1, ["a", "b"], ["c", "d"]⟩ [some "EIO"] [none]).2.2.1
      (by decide),
    (c7_callback_at_most_once ⟨true, true, 1, ["a", "b"], ["c", "d"]⟩ [some "EIO"] [none]).2.2.2
      (by decide)⟩

/-- C2: evaluation at the failing input.  Three pending files, the
second completion errors after one success: `cleanupFiles` invokes the
overall callback with the error but NO count argument (`none`, i.e.
`undefined`), and the combined `cleanup` therefore reports
`{files: undefined}` — whereas `cleanupDirs` in the same scenario does
pass the partial count `1` along with the error, as the claim states. -/
theorem c2_files_error_drops_count :
    (cleanupFiles ⟨true, true, 1, ["a", "b", "c"], []⟩
      [none, some "EBUSY", none]).calls = [(some "EBUSY", none)] ∧
    (cleanupDirs ⟨true, true, 1, [], ["a", "b", "c"]⟩
      [none, some "EBUSY", none]).calls = [(some "EBUSY", some 1)] ∧
    (cleanup ⟨true, true, 1, ["a", "b", "c"], []⟩
      [none, some "EBUSY", none] []).calls = [(some "EBUSY", none, none)] := by
  decide

/-- C3: the claim as stated is false — the falsy arguments `false` and
`0` have a shape that is neither a string, nor an object, nor absent,
yet `generateName` raises no error: it treats them like an absent
argument and applies the default prefix. -/
theorem c3_counterexample :
    generateName (JSVal.boolean false) (some "f-") "2026911" "12345" "zzz" "/tmp"
      = Except.ok "/tmp/f-2026911-12345-zzz" ∧
    generateName (JSVal.number 0) (some "f-") "2026911" "12345" "zzz" "/tmp"
      = Except.ok "/tmp/f-2026911-12345-zzz" :=
  ⟨rfl, rfl⟩

/-- C3 (amended): `generateName` raises the argument error exactly for
the truthy affixes arguments whose `typeof` is neither `"string"` nor
`"object"` (e.g. `true`, a nonzero number); every falsy argument
(`false`, `0`, `null`, the empty string) is instead treated the same as
an absent argument. -/
theorem c3_amended (v : JSVal) (dp : Option String) (d p r b : String) :
    (v.truthy = true → v.typeof ≠ "string" → v.typeof ≠ "object" →
      generateName v dp d p r b = Except.error "Unknown affix declaration") ∧
    (v.truthy = false →
      generateName v dp d p r b = generateName JSVal.undefined dp d p r b) := by
  constructor
  · intro h1 h2 h3
    cases v with
    | undefined => simp [JSVal.truthy] at h1
    | null => simp [JSVal.truthy] at h1
    | boolean bb =>
        cases bb with
        | false => simp [JSVal.truthy] at h1
        | true => rfl
    | number n =>
        have hn : ¬n = 0 := by simpa [JSVal.truthy] using h1
        simp [generateName, parseAffixes, JSVal.truthy, hn]
    | str s2 => simp [JSVal.typeof] at h2
    | object p2 s2 d2 => simp [JSVal.typeof] at h3
  · intro h
    cases v with
    | undefined => rfl
    | null => rfl
    | boolean bb =>
        cases bb with
        | false => rfl
        | true => simp [JSVal.truthy] at h
    | number n =>
        have hn : n = 0 := by simpa [JSVal.truthy] using h
        simp [generateName, parseAffixes, JSVal.truthy, hn]
    | str s2 =>
        have hs : s2 = "" := by simpa [JSVal.truthy] using h
        simp [generateName, parseAffixes, JSVal.truthy, hs]
    | object p2 s2 d2 => simp [JSVal.truthy] at h

/-- Witness for C3 (amended): `true` raises; `0` behaves like an absent
argument. -/
theorem c3_amended_witness :
    generateName (JSVal.boolean true) (some "f-") "20269" "42" "zzz" "/tmp"
      = Except.error "Unknown affix declaration" ∧
    generateName (JSVal.number 0) (some "f-") "20269" "42" "zzz" "/tmp"
      = generateName JSVal.undefined (some "f-") "20269" "42" "zzz" "/tmp" :=
  ⟨(c3_amended (JSVal.boolean true) (some "f-") "20269" "42" "zzz" "/tmp").1
      rfl (by decide) (by decide),
    (c3_amended (JSVal.number 0) (some "f-") "20269" "42" "zzz" "/tmp").2 rfl⟩

/-- `attachExitListener` preserves `HookInv`: it installs a listener
only when none is attached, and then flips the flag. -/
theorem attachExitListener_hookInv (s : TempState) (h : HookInv s) :
    HookInv (attachExitListener s) := by
  by_cases ht : s.tracking = false
  · simpa [attachExitListener, ht] using h
  · by_cases ha : s.exitListenerAttached = false
    · rcases h with ⟨_, h2⟩ | ⟨h1, _⟩
      · right
        simp [attachExitListener, ht, ha, h2]
      · rw [ha] at h1
        cases h1
    · simpa [attachExitListener, ht, ha] using h

/-- A registration preserves `HookInv` (the pending-list update does not
touch the hook fields). -/
theorem applyRegOp_hookInv (s : TempState) (op : RegOp) (h : HookInv s) :
    HookInv (applyRegOp s op) := by
  cases op with
  | file p =>
      by_cases ht : s.tracking = false
      · simpa [applyRegOp, deleteFileOnExit, ht] using h
      · have h1 := attachExitListener_hookInv s h
        rcases h1 with ⟨a, b⟩ | ⟨a, b⟩
        · exact Or.inl (by simp [applyRegOp, deleteFileOnExit, ht, a, b])
        · exact Or.inr (by simp [applyRegOp, deleteFileOnExit, ht, a, b])
  | dir p =>
      by_cases ht : s.tracking = false
      · simpa [applyRegOp, deleteDirOnExit, ht] using h
      · have h1 := attachExitListener_hookInv s h
        rcases h1 with ⟨a, b⟩ | ⟨a, b⟩
        · exact Or.inl (by simp [applyRegOp, deleteDirOnExit, ht, a, b])
        · exact Or.inr (by simp [applyRegOp, deleteDirOnExit, ht, a, b])

/-- Once attached, the exit-listener flag is never reset by a
registration. -/
theorem applyRegOp_attached_mono (s : TempState) (op : RegOp)
    (h : s.exitListenerAttached = true) :
    (applyRegOp s op).exitListenerAttached = true := by
  cases op with
  | file p =>
      by_cases ht : s.tracking = false <;>
        simp [applyRegOp, deleteFileOnExit, attachExitListener, ht, h]
  | dir p =>
      by_cases ht : s.tracking = false <;>
        simp [applyRegOp, deleteDirOnExit, attachExitListener, ht, h]

/-- With tracking enabled, any single registration leaves the exit
listener attached. -/
theorem applyRegOp_attaches (s : TempState) (op : RegOp)
    (ht : s.tracking = true) :
    (applyRegOp s op).exitListenerAttached = true := by
  cases op with
  | file p =>
      by_cases ha : s.exitListenerAttached = false <;>
        simp [applyRegOp, deleteFileOnExit, attachExitListener, ht, ha]
  | dir p =>
      by_cases ha : s.exitListenerAttached = false <;>
        simp [applyRegOp, deleteDirOnExit, attachExitListener, ht, ha]

/-- A sequence of registrations preserves `HookInv`. -/
theorem applyRegOps_hookInv (ops : List RegOp) :
    ∀ s : TempState, HookInv s → HookInv (applyRegOps s ops) := by
  induction ops with
  | nil => exact fun s h => h
  | cons op rest ih => exact fun s h => ih _ (applyRegOp_hookInv s op h)

/-- A sequence of registrations never resets the attached flag. -/
theorem applyRegOps_attached_mono (ops : List RegOp) :
    ∀ s : TempState, s.exitListenerAttached = true →
      (applyRegOps s ops).exitListenerAttached = true := by
  induction ops with
  | nil => exact fun s h => h
  | cons op rest ih => exact fun s h => ih _ (applyRegOp_attached_mono s op h)

/-- C5: across any sequence of successful resource registrations
starting from the tracked initial state, at most one exit listener is
ever installed; as soon as the sequence is nonempty the flag is set and
exactly one listener exists; and no operation ever resets the flag. -/
theorem c5_exit_hook_at_most_once (ops : List RegOp) :
    (applyRegOps initTracked ops).exitListeners ≤ 1 ∧
    (ops ≠ [] →
      (applyRegOps initTracked ops).exitListenerAttached = true ∧
      (applyRegOps initTracked ops).exitListeners = 1) ∧
    (∀ t : TempState, ∀ op : RegOp, t.exitListenerAttached = true →
      (applyRegOp t op).exitListenerAttached = true) := by
  have hinv : HookInv (applyRegOps initTracked ops) :=
    applyRegOps_hookInv ops initTracked (Or.inl ⟨rfl, rfl⟩)
  refine ⟨?_, ?_, fun t op h => applyRegOp_attached_mono t op h⟩
  · rcases hinv with ⟨_, h2⟩ | ⟨_, h2⟩ <;> omega
  · intro hne
    match ops with
    | op :: rest =>
        have h1 : (applyRegOp initTracked op).exitListenerAttached = true :=
          applyRegOp_attaches initTracked op rfl
        have h2 : (applyRegOps initTracked (op :: rest)).exitListenerAttached = true := by
          rw [applyRegOps, List.foldl_cons]
          exact applyRegOps_attached_mono rest _ h1
        refine ⟨h2, ?_⟩
        rcases hinv with ⟨ha, _⟩ | ⟨_, hb⟩
        · rw [h2] at ha
          cases ha
        · exact hb

/-- Witness for C5: three registrations install exactly one listener. -/
theorem c5_witness :
    (applyRegOps initTracked
      [RegOp.file "a", RegOp.dir "b", RegOp.file "c"]).exitListenerAttached = true ∧
    (applyRegOps initTracked
      [RegOp.file "a", RegOp.dir "b", RegOp.file "c"]).exitListeners = 1 :=
  (c5_exit_hook_at_most_once [RegOp.file "a", RegOp.dir "b", RegOp.file "c"]).2.1
    (by decide)

end Nanotemp
